import Mathlib

/-!
Shallow embedding of src/lab_5_scraper/scraper.py (configuration validation,
the crawl loop, and the article parser) together with proofs settling the
specification claims about it.  Python dynamic values are embedded as JSON
values, Python exceptions as an explicit error type, the HTTP boundary as a
function from URLs to optional pages, and the unbounded crawl loop as a
fuel-indexed step function, with a separate outcome for fuel exhaustion so
that termination behaviour is observable.
-/

set_option autoImplicit false

namespace Scraper

/-- Python exception kinds the embedded code can raise.  The first three are
built-in Python errors; the remaining seven are the custom error classes
declared at lines 17-44 of scraper.py. -/
inductive Exc where
  | typeError
  | keyError
  | connectionError
  | incorrectSeedURL
  | numberOfArticlesOutOfRange
  | incorrectNumberOfArticles
  | incorrectHeaders
  | incorrectEncoding
  | incorrectTimeout
  | incorrectVerify
  deriving DecidableEq

/-- JSON values as produced by json.load: the dynamic values held by
config_data inside Config._validate_config_content. -/
inductive JVal where
  | jint (n : Int)
  | jstr (s : String)
  | jbool (b : Bool)
  | jlist (xs : List JVal)
  | jdict (xs : List (String × JVal))
  | jnull

/-- Subscripting a JSON-decoded dict with a string key: KeyError when the key
is absent, TypeError when the subscripted value is not a dict. -/
def dictGet (d : JVal) (k : String) : Except Exc JVal :=
  match d with
  | .jdict xs =>
    match xs.lookup k with
    | some v => .ok v
    | none => .error .keyError
  | _ => .error .typeError

/-- The character sequence pat occurs contiguously inside the second
character sequence. -/
def strContainsAux (pat : List Char) : List Char → Bool
  | [] => pat.isEmpty
  | c :: rest => pat.isPrefixOf (c :: rest) || strContainsAux pat rest

/-- Python substring containment: pat in s for strings. -/
def strContains (pat s : String) : Bool :=
  strContainsAux pat.data s.data

/-- Python expression pat not in v (line 89): substring test when v is a
string; a non-string operand raises TypeError.  (The list and dict cases of
the in-operator are not exercised by any configuration considered here.) -/
def py_not_in_str (pat : String) (v : JVal) : Except Exc Bool :=
  match v with
  | .jstr s => .ok (!strContains pat s)
  | _ => .error .typeError

/-- Python comparison v < n against an int literal: ints compare, and bools
compare as ints (True is 1, False is 0, bool being a subclass of int); any
other operand raises TypeError. -/
def pyLtInt (v : JVal) (n : Int) : Except Exc Bool :=
  match v with
  | .jint m => .ok (decide (m < n))
  | .jbool b => .ok (decide ((if b then (1 : Int) else 0) < n))
  | _ => .error .typeError

/-- Python comparison v > n against an int literal. -/
def pyGtInt (v : JVal) (n : Int) : Except Exc Bool :=
  match v with
  | .jint m => .ok (decide (n < m))
  | .jbool b => .ok (decide (n < if b then (1 : Int) else 0))
  | _ => .error .typeError

/-- Python isinstance(v, int); True and False are instances of int. -/
def py_isinstance_int : JVal → Bool
  | .jint _ => true
  | .jbool _ => true
  | _ => false

/-- Python isinstance(v, str). -/
def py_isinstance_str : JVal → Bool
  | .jstr _ => true
  | _ => false

/-- Iterating a value with a for-loop, modelled for lists (the only case the
claims exercise); other values raise TypeError here. -/
def asIterList : JVal → Except Exc (List JVal)
  | .jlist xs => .ok xs
  | _ => .error .typeError

/-- Lines 88-90: the seed-URL loop of _validate_config_content.  The source
tests literal-substring containment of "https?://(www.)?" in each URL, not a
match of that text read as a pattern, and raises IncorrectSeedURLError for
the first URL that does not contain the literal. -/
def check_seed_urls : List JVal → Except Exc Unit
  | [] => .ok ()
  | url :: rest =>
    match py_not_in_str "https?://(www.)?" url with
    | .error e => .error e
    | .ok true => .error .incorrectSeedURL
    | .ok false => check_seed_urls rest

/-- Line 102: the expression written as config_data indexed by the pair
('headers', dict) subscripts the dict with a tuple key.  json.load produces
dicts whose keys are strings, so the lookup raises KeyError on every
configuration (and the surrounding one-argument isinstance call would itself
raise TypeError were it ever reached). -/
def headers_tuple_subscript : JVal → Except Exc JVal
  | .jdict _ => .error .keyError
  | _ => .error .typeError

/-- Line 112: config_data indexed by the pair ('should_verify_sertificate',
bool), the same tuple-subscript slip, with the key additionally misspelled;
KeyError on any dict. -/
def verify_tuple_subscript : JVal → Except Exc JVal
  | .jdict _ => .error .keyError
  | _ => .error .typeError

/-- isinstance called with a single argument (lines 102 and 112) raises
TypeError: isinstance expected 2 arguments. -/
def isinstance_one_arg (_v : JVal) : Except Exc Bool :=
  .error .typeError

/-- Config._validate_config_content (lines 82-113), with the configuration
source abstracted as the JSON value json.load returns.  The checks run in
source order with Python short-circuit evaluation: seed URLs (lines 88-90),
article-count range before article-count type (lines 92-100), the headers
check (line 102, the tuple-subscript), encoding (line 105), timeout
(lines 108-110), and the verify flag (line 112, the other tuple-subscript). -/
def validate_config_content (config_data : JVal) : Except Exc Unit :=
  match dictGet config_data "seed_urls" with
  | .error e => .error e
  | .ok seeds =>
  match asIterList seeds with
  | .error e => .error e
  | .ok urls =>
  match check_seed_urls urls with
  | .error e => .error e
  | .ok _ =>
  match dictGet config_data "total_articles_to_find_and_parse" with
  | .error e => .error e
  | .ok total =>
  match pyLtInt total 1 with
  | .error e => .error e
  | .ok true => .error .numberOfArticlesOutOfRange
  | .ok false =>
  match pyGtInt total 150 with
  | .error e => .error e
  | .ok true => .error .numberOfArticlesOutOfRange
  | .ok false =>
  if !py_isinstance_int total then .error .incorrectNumberOfArticles
  else
  match pyLtInt total 0 with
  | .error e => .error e
  | .ok true => .error .incorrectNumberOfArticles
  | .ok false =>
  match headers_tuple_subscript config_data with
  | .error e => .error e
  | .ok hv =>
  match isinstance_one_arg hv with
  | .error e => .error e
  | .ok hb =>
  if !hb then .error .incorrectHeaders
  else
  match dictGet config_data "encoding" with
  | .error e => .error e
  | .ok enc =>
  if !py_isinstance_str enc then .error .incorrectEncoding
  else
  match dictGet config_data "timeout" with
  | .error e => .error e
  | .ok tmo =>
  if !py_isinstance_int tmo then .error .incorrectTimeout
  else
  match pyLtInt tmo 60 with
  | .error e => .error e
  | .ok false => .error .incorrectTimeout
  | .ok true =>
  match pyGtInt tmo 0 with
  | .error e => .error e
  | .ok false => .error .incorrectTimeout
  | .ok true =>
  match verify_tuple_subscript config_data with
  | .error e => .error e
  | .ok vv =>
  match isinstance_one_arg vv with
  | .error e => .error e
  | .ok vb =>
  if !vb then .error .incorrectVerify
  else .ok ()

/-- Modelled from the spec: core_utils.config_dto.ConfigDTO (imported at
line 9 from core_utils, which is not under src/) is a plain record of the
seven configuration fields of the configuration source. -/
structure ConfigDTO where
  seed_urls : JVal
  total_articles_to_find_and_parse : JVal
  headers : JVal
  encoding : JVal
  timeout : JVal
  should_verify_certificate : JVal
  headless_mode : JVal

/-- Config._extract_config_content (lines 71-80): rebuilds the record as
ConfigDTO(**config_data), binding each field from the corresponding key. -/
def extract_config_content (config_data : JVal) : Except Exc ConfigDTO := do
  let su ← dictGet config_data "seed_urls"
  let ta ← dictGet config_data "total_articles_to_find_and_parse"
  let hd ← dictGet config_data "headers"
  let en ← dictGet config_data "encoding"
  let tm ← dictGet config_data "timeout"
  let sv ← dictGet config_data "should_verify_certificate"
  let hm ← dictGet config_data "headless_mode"
  return ⟨su, ta, hd, en, tm, sv, hm⟩

/-- Config.__init__ (lines 51-67), with the file read abstracted as the JSON
value config_data.  The first component is the trace of HTTP requests issued
during construction (compare make_request below, the only place a request is
made in the embedded program); the second is the outcome: a validation error
propagates, otherwise the extracted ConfigDTO whose attributes initialize the
Config fields. -/
def Config_init (config_data : JVal) : List String × Except Exc ConfigDTO :=
  match validate_config_content config_data with
  | .error e => ([], .error e)
  | .ok _ =>
    match extract_config_content config_data with
    | .error e => ([], .error e)
    | .ok dto => ([], .ok dto)

/-- A successfully constructed Config object: the attributes assigned at
lines 58-67 (note the source's own spelling should_varify_certificate of the
last attribute), with the Python-typed values specialized to the types a
valid configuration carries. -/
structure Config where
  path_to_config : String
  encoding : String
  headers : List (String × String)
  headless_mode : Bool
  seed_urls : List String
  timeout : Int
  num_articles : Int
  should_varify_certificate : Bool

/-- Config.get_seed_urls (lines 120-127). -/
def get_seed_urls (c : Config) : List String :=
  c.seed_urls

/-- Config.get_num_articles (lines 129-136). -/
def get_num_articles (c : Config) : Int :=
  c.num_articles

/-- Config.get_headers (lines 138-145). -/
def get_headers (c : Config) : List (String × String) :=
  c.headers

/-- Config.get_encoding (lines 147-154). -/
def get_encoding (c : Config) : String :=
  c.encoding

/-- Config.get_timeout (lines 156-163). -/
def get_timeout (c : Config) : Int :=
  c.timeout

/-- Config.get_verify_certificate (lines 165-172). -/
def get_verify_certificate (c : Config) : Bool :=
  c.should_varify_certificate

/-- Config.get_headless_mode (lines 174-181): the body consists of the
docstring only, so the method returns Python None for every instance,
ignoring the stored headless_mode attribute. -/
def get_headless_mode (_c : Config) : Option Bool :=
  none

/-- One div element with class item__title on a seed page, with the hrefs of
its anchor descendants.  Nothing of it is ever read by the embedded code: the
source raises TypeError before obtaining any item div (see findall_call). -/
structure ItemDiv where
  hrefs : List String

/-- A fetched, markup-parsed page, carrying the div.item__title elements
present on it — what a correct bs4 find_all('div', ...) would return.  The
source never reaches them: its findall call raises (see findall_call). -/
structure Page where
  item_title_divs : List ItemDiv

/-- Line 227: the fixed site base the crawler resolves links against. -/
def base_link : String :=
  "https://край-дорогобужский.рф"

/-- Line 228: articles = article_bs.findall('div', ...).  bs4 defines no
findall method (the interface has find_all and the legacy findAll), so the
attribute access falls back to Tag.find('findall'); no findall tag exists on
any page, the lookup is Python None, and calling it raises TypeError — on
every page, whatever its contents, before any item div is obtained. -/
def findall_call (_article_bs : Page) : Except Exc (List ItemDiv) :=
  .error .typeError

/-- Line 230: href is assigned art.find('a'['href']).  The argument
expression indexes the one-character string literal with the string 'href',
which would raise TypeError (string indices must be integers) before find is
invoked; the TypeError of line 228 makes this loop body unreachable. -/
def a_find_href (_art : ItemDiv) : Except Exc String :=
  .error .typeError

/-- Lines 229-233: the for-loop of _extract_url, unreachable behind the
TypeError of line 228.  The accumulator is the local base_link, which the
source grows with base_link += href across iterations; the
isinstance(base_link, str) conjunct is always true, so the loop returns the
first accumulated link not already in self.urls, and falls through to return
the empty string (line 234) when the items are exhausted. -/
def extract_url_loop (urls : List String) : String → List ItemDiv → Except Exc String
  | _, [] => .ok ""
  | acc, art :: rest =>
    match a_find_href art with
    | .error e => .error e
    | .ok href =>
      let acc2 := acc ++ href
      if acc2 ∈ urls then extract_url_loop urls acc2 rest
      else .ok acc2

/-- Crawler._extract_url (lines 217-234), with self.urls passed explicitly:
the findall call of line 228 raises TypeError on every page, so the for-loop
over item divs and the fall-through return of '' never execute. -/
def extract_url (urls : List String) (article_bs : Page) : Except Exc String :=
  match findall_call article_bs with
  | .error e => .error e
  | .ok articles => extract_url_loop urls base_link articles

/-- make_request (lines 183-197): one HTTP GET.  The transport is abstracted
as net, mapping a URL to the page its response parses to, or to nothing when
the underlying request raises (connection failure); requests.get applies the
configured headers, timeout and verification flag, which do not affect the
shape of the result. -/
def make_request (net : String → Option Page) (url : String) (_config : Config) :
    Except Exc Page :=
  match net url with
  | some p => .ok p
  | none => .error .connectionError

/-- Result of running a piece of the crawler: normal completion, a propagated
Python exception, or fuel exhaustion (the run is still going after the given
number of loop iterations; holding for every fuel, this is non-termination). -/
inductive Outcome (α : Type) where
  | done (a : α)
  | raised (e : Exc)
  | hang

/-- Lines 243-246: the while True body of find_articles.  Each pass re-parses
the same response text, extracts one URL, appends it when new, and loops
again; the source contains no break, return or quota test inside the loop, so
the only exits are a propagated exception and fuel exhaustion. -/
def find_articles_while (page : Page) : List String → Nat → Outcome (List String)
  | _, 0 => .hang
  | urls, fuel + 1 =>
    match extract_url urls page with
    | .error e => .raised e
    | .ok extracted =>
      if extracted ∈ urls then find_articles_while page urls fuel
      else find_articles_while page (urls ++ [extracted]) fuel

/-- Crawler.get_search_urls (lines 248-255). -/
def get_search_urls (config : Config) : List String :=
  get_seed_urls config

/-- Lines 240-246: the for-loop of find_articles over the seed URLs, carrying
self.urls.  Per iteration the source first calls make_request (line 241) and
only then compares len(self.urls) against get_num_articles (line 242); an
exception from the fetch or from _extract_url propagates, ending the run.
The first component of the result is the trace of URLs for which an HTTP
request was issued, in order. -/
def find_articles_loop (config : Config) (net : String → Option Page) (fuel : Nat) :
    List String → List String → List String × Outcome (List String)
  | [], urls => ([], .done urls)
  | seed_url :: rest, urls =>
    match make_request net seed_url config with
    | .error e => ([seed_url], .raised e)
    | .ok response =>
      if (urls.length : Int) < get_num_articles config then
        match find_articles_while response urls fuel with
        | .done urls2 =>
          let r := find_articles_loop config net fuel rest urls2
          (seed_url :: r.1, r.2)
        | .raised e => ([seed_url], .raised e)
        | .hang => ([seed_url], .hang)
      else
        let r := find_articles_loop config net fuel rest urls
        (seed_url :: r.1, r.2)

/-- Crawler.find_articles (lines 236-246), started from the freshly
constructed crawler state self.urls = [] (line 214). -/
def find_articles (config : Config) (net : String → Option Page) (fuel : Nat) :
    List String × Outcome (List String) :=
  find_articles_loop config net fuel (get_search_urls config) []

/-- Modelled from the spec: core_utils.article.article.Article (imported at
line 11 from core_utils, which is not under src/) is the article record
created by HTMLParser.__init__ from the URL and the assigned identifier. -/
structure Article where
  url : String
  article_id : Int

/-- A Python datetime.datetime value, as far as the embedded code would need
one (it never constructs any). -/
structure PyDatetime where
  year : Int
  month : Int
  day : Int

/-- HTMLParser state after __init__ (lines 266-278). -/
structure HTMLParser where
  full_url : String
  article_id : Int
  config : Config
  article : Article

/-- HTMLParser.__init__ (lines 266-278): stores the arguments and creates
Article(full_url, article_id). -/
def HTMLParser_init (full_url : String) (article_id : Int) (config : Config) :
    HTMLParser :=
  ⟨full_url, article_id, config, ⟨full_url, article_id⟩⟩

/-- HTMLParser._fill_article_with_text (lines 280-287): binds the result of
article_soup.find('div', clas = "item-content") to a local name and does
nothing with it, so the parser state is returned unchanged. -/
def fill_article_with_text (p : HTMLParser) (_article_soup : Page) : HTMLParser :=
  p

/-- HTMLParser.unify_date_format (lines 297-306): the body consists of the
docstring only, so the method returns Python None for every date string
(its return annotation even names datetime, which the module never imports). -/
def unify_date_format (_p : HTMLParser) (_date_str : String) : Option PyDatetime :=
  none

/-- HTMLParser.parse (lines 308-314): the body consists of the docstring
only, so the method fetches nothing, fills nothing, and returns Python None
for every parser instance. -/
def parse (_p : HTMLParser) : Option Article :=
  none

/-- A configuration source in which every field is valid per the data model:
a well-formed seed URL, an article count of 3, a string-to-string headers
map, a string encoding, a timeout of 10 and boolean flags. -/
def validConfigData : JVal :=
  JVal.jdict
    [("seed_urls", JVal.jlist [JVal.jstr "https://example.com/list"]),
     ("total_articles_to_find_and_parse", JVal.jint 3),
     ("headers", JVal.jdict []),
     ("encoding", JVal.jstr "utf-8"),
     ("timeout", JVal.jint 10),
     ("should_verify_certificate", JVal.jbool true),
     ("headless_mode", JVal.jbool false)]

/-- The same configuration with the seed URL replaced by a string that merely
contains the literal text the code searches for, so that the seed-URL and
article-count rules pass and control reaches the headers check of line 102. -/
def literalSeedConfigData : JVal :=
  JVal.jdict
    [("seed_urls", JVal.jlist [JVal.jstr "https?://(www.)?x"]),
     ("total_articles_to_find_and_parse", JVal.jint 3),
     ("headers", JVal.jdict []),
     ("encoding", JVal.jstr "utf-8"),
     ("timeout", JVal.jint 10),
     ("should_verify_certificate", JVal.jbool true),
     ("headless_mode", JVal.jbool false)]

/-- A crawler configuration with one seed URL and a target of 3 articles. -/
def cfgC1 : Config :=
  { path_to_config := "crawler_config.json", encoding := "utf-8", headers := [],
    headless_mode := false, seed_urls := ["https://s"], timeout := 10,
    num_articles := 3, should_varify_certificate := true }

/-- A crawler configuration with one seed URL and a target of 1 article. -/
def cfgC2 : Config :=
  { path_to_config := "crawler_config.json", encoding := "utf-8", headers := [],
    headless_mode := false, seed_urls := ["https://s"], timeout := 10,
    num_articles := 1, should_varify_certificate := true }

/-- A crawler configuration with a target of 1 article, used at a state where
that quota is already met. -/
def cfgC3 : Config :=
  { path_to_config := "crawler_config.json", encoding := "utf-8", headers := [],
    headless_mode := false, seed_urls := ["https://s1", "https://s2"], timeout := 10,
    num_articles := 1, should_varify_certificate := true }

/-- A crawler configuration with two seed URLs and a target of 3 articles. -/
def cfgC7 : Config :=
  { path_to_config := "crawler_config.json", encoding := "utf-8", headers := [],
    headless_mode := false, seed_urls := ["https://s1", "https://s2"], timeout := 10,
    num_articles := 3, should_varify_certificate := true }

/-- A seed page containing one div.item__title, i.e. one candidate link. -/
def pageOneItem : Page :=
  ⟨[⟨["/news/1"]⟩]⟩

/-- A transport whose every response parses to the one-candidate page. -/
def netOneItem : String → Option Page :=
  fun _ => some pageOneItem

/-- A seed page whose container yields zero candidate links. -/
def emptyPage : Page :=
  ⟨[]⟩

/-- A transport whose every response parses to the zero-candidate page. -/
def netEmptyPage : String → Option Page :=
  fun _ => some emptyPage

/-- A transport in which every request raises a connection failure. -/
def netNone : String → Option Page :=
  fun _ => none

/-- C1: the claim that after find_articles completes, the discovered-URL
sequence is duplicate-free, of length at most the target count and in
first-seen order, fails on the code: on a seed page containing a candidate
link, _extract_url's findall attribute access at line 228 resolves to the
None result of find('findall') and calling it raises TypeError, so
find_articles aborts on the first pass without discovering any URL; it never
completes with a discovered-URL sequence at all. -/
theorem C1_find_articles_raises_on_candidate_link (fuel : Nat) :
    find_articles cfgC1 netOneItem (fuel + 1) =
      (["https://s"], Outcome.raised Exc.typeError) := rfl

/-- C2: the claim that a seed page whose container yields zero candidate
links is a no-op — not an error — and is processed in a single bounded pass
fails on the code: on such a page the very first pass of the while True loop
raises TypeError at line 228 (the findall attribute access yields the None
result of find('findall'), and calling None raises), so the zero-link seed
page aborts the whole run instead of contributing nothing. -/
theorem C2_zero_link_seed_page_aborts_run (fuel : Nat) :
    find_articles cfgC2 netEmptyPage (fuel + 1) =
      (["https://s"], Outcome.raised Exc.typeError) := rfl

/-- C3: the claim that no HTTP request is issued for a remaining seed URL
once the quota is reached fails on the code: line 241 calls make_request
before line 242 compares len(self.urls) with the target, so at a state whose
one-article quota is already met (urls holds one URL) the remaining seed is
still fetched — it appears in the request trace — and only its processing is
skipped. -/
theorem C3_remaining_seed_fetched_after_quota :
    ¬ ((List.length ["u1"] : Int) < get_num_articles cfgC3) ∧
    find_articles_loop cfgC3 netEmptyPage 5 ["https://s2"] ["u1"] =
      (["https://s2"], Outcome.done ["u1"]) :=
  ⟨by decide, rfl⟩

/-- C4: the claim that each of the seven invalid-field cases raises its
matching error kind and that a fully valid configuration loads without
raising fails on the code: the fully valid configuration is rejected with
IncorrectSeedURLError (the literal-substring seed check), and a configuration
passing the seed and count rules crashes with KeyError at the headers check
(the tuple subscript of line 102), so the headers, encoding, timeout and
verify rules can never raise their claimed error kinds. -/
theorem C4_valid_config_rejected_and_headers_rule_crashes :
    validate_config_content validConfigData = Except.error Exc.incorrectSeedURL ∧
    validate_config_content literalSeedConfigData = Except.error Exc.keyError :=
  ⟨rfl, rfl⟩

/-- C5: the claim that a seed URL is rejected exactly when it fails the
optional-scheme, optional-www pattern — and that https://example.com/list in
particular is accepted — fails on the code: the well-formed URL
https://example.com/list is rejected with IncorrectSeedURLError, while the
non-URL string "https?://(www.)?x", which merely contains the literal
characters the code searches for, is accepted. -/
theorem C5_seed_check_is_literal_substring :
    check_seed_urls [JVal.jstr "https://example.com/list"] =
      Except.error Exc.incorrectSeedURL ∧
    check_seed_urls [JVal.jstr "https?://(www.)?x"] = Except.ok () :=
  ⟨rfl, rfl⟩

/-- C6: for every configuration source, constructing the Config runs its
validation to completion (accepting or rejecting) and issues no HTTP request:
the request trace of Config initialization is empty on every input. -/
theorem C6_config_load_performs_no_network_call (config_data : JVal) :
    (Config_init config_data).1 = [] := by
  unfold Config_init
  split
  · rfl
  · split <;> rfl

/-- C7: the claim that a failing seed-page fetch contributes zero URLs and
the crawler proceeds to the next configured seed without raising fails on the
code: find_articles has no exception handling, so the connection failure on
the first seed propagates out of the run; the request trace shows the second
seed is never fetched, for any fuel bound. -/
theorem C7_fetch_failure_aborts_run (fuel : Nat) :
    find_articles cfgC7 netNone fuel =
      (["https://s1"], Outcome.raised Exc.connectionError) := rfl

/-- C8: the claim that a page with no recognizable content container yields
an article record with empty body text, with absent optional fields merely
omitted, fails on the code: HTMLParser.parse has an empty body and returns
None for every parser instance — no article record is ever produced — and
_fill_article_with_text discards the result of its find call, leaving the
parser state unchanged. -/
theorem C8_parse_produces_no_record (p : HTMLParser) (article_soup : Page) :
    parse p = none ∧ fill_article_with_text p article_soup = p :=
  ⟨rfl, rfl⟩

/-- C9: the claim that date normalization is idempotent on its canonical
outputs fails on the code: unify_date_format has an empty body and returns
None for every date string, so it never produces a canonical representation
on which idempotence could hold. -/
theorem C9_unify_date_format_returns_none (p : HTMLParser) (date_str : String) :
    unify_date_format p date_str = none := rfl

/-- C10: for every Config, get_headless_mode returns None regardless of the
stored headless_mode flag, while each of the other six accessors returns its
corresponding stored attribute. -/
theorem C10_accessors_return_stored_fields (c : Config) :
    get_headless_mode c = none ∧
    get_seed_urls c = c.seed_urls ∧
    get_num_articles c = c.num_articles ∧
    get_headers c = c.headers ∧
    get_encoding c = c.encoding ∧
    get_timeout c = c.timeout ∧
    get_verify_certificate c = c.should_varify_certificate :=
  ⟨rfl, rfl, rfl, rfl, rfl, rfl, rfl⟩

end Scraper
